import Mathlib

/-!
Verification development for the HealthConnect feed / notifications logic.

The definitions below are shallow embeddings of the JavaScript source:
`src/screens/FeedScreen.js`, `src/components/PaginatedFlatList.js`,
`src/redux/slices/postsSlice.js` (toggleLike, fetchFeedPosts and their
reducers), `src/components/PostCard.js` (handleLikeToggle) and the two
`notificationsSlice.js` variants (array-based and Map/object-based).
Timestamps are logical integers, Firestore documents are Lean structures,
and each Redux reducer is a pure state-transition function.
-/

namespace HealthConnect

/-- A feed post as stored in the `posts` collection and in Redux state. -/
structure Post where
  id : String
  userId : String
  timestamp : Int
  likes : List String
  likeCount : Int
  commentCount : Int
deriving DecidableEq, Repr

/-! ### postsSlice (src/redux/slices/postsSlice.js) -/

namespace PostsSlice

/-- Payload of a fulfilled `fetchFeedPosts` thunk. -/
structure FetchPayload where
  posts : List Post
  lastDoc : Option String
  hasMore : Bool
deriving DecidableEq, Repr

/-- The slice state fields that the feed logic touches. -/
structure PostsState where
  feed : List Post
  status : String
  lastDoc : Option String
  hasMore : Bool
  refreshing : Bool
deriving DecidableEq, Repr

/-- `initialState` of the posts slice. -/
def initialPostsState : PostsState :=
  { feed := [], status := "idle", lastDoc := none, hasMore := true, refreshing := false }

/-- Reducer case `fetchFeedPosts.fulfilled`: replaces the feed when
`refreshing`, otherwise appends the page with no deduplication. -/
def fetchFeedPostsFulfilled (s : PostsState) (payload : FetchPayload) : PostsState :=
  { s with
    status := "succeeded"
    feed := if s.refreshing then payload.posts else s.feed ++ payload.posts
    lastDoc := payload.lastDoc
    hasMore := payload.hasMore
    refreshing := false }

/-- The `updatePostLike` helper inside the `toggleLike.fulfilled` reducer. -/
def updatePostLike (postId userId : String) (isLiked : Bool) (p : Post) : Post :=
  if p.id != postId then p
  else if isLiked then
    { p with likes := p.likes ++ [userId], likeCount := p.likeCount + 1 }
  else
    { p with likes := p.likes.filter (fun uid => uid != userId)
             likeCount := max 0 (p.likeCount - 1) }

/-- The `updateCommentCount` helper inside the `addComment.fulfilled` reducer. -/
def addCommentToPost (postId : String) (p : Post) : Post :=
  if p.id != postId then p else { p with commentCount := p.commentCount + 1 }

/-- The `updateCommentCount` helper inside the `deleteComment.fulfilled`
reducer, clamping at zero. -/
def removeCommentFromPost (postId : String) (p : Post) : Post :=
  if p.id != postId then p else { p with commentCount := max 0 (p.commentCount - 1) }

/-- Actions of the posts slice that mutate the feed sequence. -/
inductive FeedAction where
  | setRefreshing (b : Bool)
  | clearFeed
  | fetchFulfilled (payload : FetchPayload)
  | createPostFulfilled (p : Post)
  | toggleLikeFulfilled (postId userId : String) (isLiked : Bool)
  | addCommentFulfilled (postId : String)
  | deleteCommentFulfilled (postId : String)
  | deletePostFulfilled (postId : String)
deriving Repr

/-- One reducer step of the posts slice on the feed-relevant actions. -/
def applyFeedAction (s : PostsState) : FeedAction → PostsState
  | .setRefreshing b => { s with refreshing := b }
  | .clearFeed => { s with feed := [], lastDoc := none, hasMore := true }
  | .fetchFulfilled payload => fetchFeedPostsFulfilled s payload
  | .createPostFulfilled p => { s with status := "succeeded", feed := p :: s.feed }
  | .toggleLikeFulfilled postId userId isLiked =>
      { s with feed := s.feed.map (updatePostLike postId userId isLiked) }
  | .addCommentFulfilled postId =>
      { s with status := "succeeded", feed := s.feed.map (addCommentToPost postId) }
  | .deleteCommentFulfilled postId =>
      { s with feed := s.feed.map (removeCommentFromPost postId) }
  | .deletePostFulfilled postId =>
      { s with status := "succeeded", feed := s.feed.filter (fun p => p.id != postId) }

/-- Folding a list of dispatched actions over the reducer. -/
def applyFeedActions (s : PostsState) (acts : List FeedAction) : PostsState :=
  acts.foldl applyFeedAction s

/-- The ordering the spec demands: createdAt (timestamp) descending, ties
broken by id descending, between every earlier and every later entry. String
ids are compared by their character data, which is exactly the order of
`String.instLT`. -/
def specOrdered (l : List Post) : Prop :=
  l.Pairwise (fun p q => q.timestamp < p.timestamp ∨
    (q.timestamp = p.timestamp ∧ q.id.data < p.id.data))

instance (l : List Post) : Decidable (specOrdered l) :=
  show Decidable (l.Pairwise fun p q => q.timestamp < p.timestamp ∨
    (q.timestamp = p.timestamp ∧ q.id.data < p.id.data)) from inferInstance

/-- The (createdAt desc, id desc) ordering up to duplicates: the later
entry's (timestamp, id) key is lexicographically at most the earlier one's,
equality of both permitted (so a post delivered twice by overlapping pages
may repeat). -/
def specLe (p q : Post) : Prop :=
  q.timestamp < p.timestamp ∨
    (q.timestamp = p.timestamp ∧ (q.id.data < p.id.data ∨ q.id = p.id))

instance (p q : Post) : Decidable (specLe p q) :=
  show Decidable (q.timestamp < p.timestamp ∨
    (q.timestamp = p.timestamp ∧ (q.id.data < p.id.data ∨ q.id = p.id))) from inferInstance

/-- A list ordered by (createdAt desc, id desc) up to duplicates, between
every earlier and every later entry. -/
def specOrderedLe (l : List Post) : Prop :=
  l.Pairwise specLe

instance (l : List Post) : Decidable (specOrderedLe l) :=
  show Decidable (l.Pairwise specLe) from inferInstance

/-- Side conditions under which a dispatched action keeps the feed ordered
by (createdAt desc, id desc) up to duplicates: fetched pages are themselves
so ordered (the FeedPage contract) and no newer than the posts already in
the feed unless the fetch replaces the feed on refresh, and an
optimistically created post is at least as new as everything in the feed. -/
def admissibleAction (s : PostsState) : FeedAction → Prop
  | .fetchFulfilled payload =>
      specOrderedLe payload.posts ∧
      (s.refreshing = false → ∀ x ∈ s.feed, ∀ y ∈ payload.posts, specLe x y)
  | .createPostFulfilled p => ∀ x ∈ s.feed, specLe p x
  | _ => True

/-- A run of actions, each admissible in the state it is applied to. -/
def admissibleRun (s : PostsState) : List FeedAction → Prop
  | [] => True
  | a :: acts => admissibleAction s a ∧ admissibleRun (applyFeedAction s a) acts

/-- A query against the posts collection: an optional `userId in [...]`
filter, a limit, and an optional pagination cursor. -/
structure PostsQuery where
  filterIds : Option (List String)
  limit : Nat
  startAfter : Option String
deriving DecidableEq, Repr

/-- The id set `fetchFeedPosts` allows: connections minus blocked users,
plus the viewer (postsSlice.js lines 42-45). -/
def feedAllUserIds (userId : String) (connectedUserIds blockedUsers : List String) :
    List String :=
  (connectedUserIds.filter (fun uid => !blockedUsers.contains uid)) ++ [userId]

/-- The query `fetchFeedPosts` builds (postsSlice.js lines 47-61): a
filtered query of `limit` when at most 10 ids, else an unfiltered query of
`limit * 3`. -/
def fetchFeedPostsQuery (userId : String) (connectedUserIds blockedUsers : List String)
    (limit : Nat) (lastDoc : Option String) : PostsQuery :=
  let allUserIds := feedAllUserIds userId connectedUserIds blockedUsers
  if allUserIds.length ≤ 10 then
    { filterIds := some (if allUserIds.length > 0 then allUserIds else [userId])
      limit := limit, startAfter := lastDoc }
  else
    { filterIds := none, limit := limit * 3, startAfter := lastDoc }

/-- The `fetchFeedPosts` thunk (postsSlice.js lines 25-113): builds the
query, runs it against the remote collection, and in the over-fan-out case
filters client-side to the allowed authors and truncates to `limit`. -/
def fetchFeedPosts (userId : String) (connectedUserIds blockedUsers : List String)
    (limit : Nat) (lastDoc : Option String) (remote : PostsQuery → List Post) :
    FetchPayload :=
  let allUserIds := feedAllUserIds userId connectedUserIds blockedUsers
  let docs := remote (fetchFeedPostsQuery userId connectedUserIds blockedUsers limit lastDoc)
  let posts :=
    if allUserIds.length ≤ 10 then docs
    else (docs.filter (fun d => allUserIds.contains d.userId)).take limit
  { posts := posts
    lastDoc := (docs.getLast?).map Post.id
    hasMore := posts.length == limit }

/-- `FieldValue.arrayUnion` on a list value: appends only when absent. -/
def arrayUnion (xs : List String) (x : String) : List String :=
  if xs.contains x then xs else xs ++ [x]

/-- `FieldValue.arrayRemove` on a list value: removes every occurrence. -/
def arrayRemove (xs : List String) (x : String) : List String :=
  xs.filter (fun y => y != x)

/-- The new remote document the `toggleLike` thunk writes: when the viewer
is in the like-list, arrayRemove plus decrement, else arrayUnion plus
increment. -/
def toggledPost (userId : String) (post : Post) : Post :=
  if post.likes.contains userId then
    { post with likes := arrayRemove post.likes userId
                likeCount := post.likeCount - 1 }
  else
    { post with likes := arrayUnion post.likes userId
                likeCount := post.likeCount + 1 }

/-- The `toggleLike` thunk (postsSlice.js lines 316-371) acting on the
remote posts collection: reads the post, decides by remote like-membership,
applies the atomic arrayUnion/arrayRemove plus likeCount increment, and
returns the updated collection together with the payload flag `isLiked`
(the new state, `!isLiked` in the source). A missing post or a collaborator
failure yields a rejected value, not an exception. -/
def toggleLikeThunk (db : List Post) (postId userId : String) (remoteFails : Bool) :
    Except String (List Post × Bool) :=
  if remoteFails then .error "network request failed"
  else
    match db.find? (fun p => p.id == postId) with
    | none => .error "Post not found"
    | some post =>
      .ok (db.map (fun p => if p.id == postId then toggledPost userId post else p),
        !(post.likes.contains userId))

/-- Dispatching one `toggleLike`: run the thunk against the remote
collection and apply `toggleLike.fulfilled` on success. The slice registers
no handler for `toggleLike.rejected`, so a failure leaves the state
untouched. -/
def toggleLikeDispatch (postId userId : String) (remoteFails : Bool)
    (sys : List Post × PostsState) : List Post × PostsState :=
  match toggleLikeThunk sys.1 postId userId remoteFails with
  | .error _ => sys
  | .ok (db2, isLiked) =>
    (db2, applyFeedAction sys.2 (.toggleLikeFulfilled postId userId isLiked))

/-- A sequence of toggleLike dispatches: each operation names the post, the
acting user, and whether the remote call fails. -/
def toggleLikeRun (sys : List Post × PostsState) (ops : List (String × String × Bool)) :
    List Post × PostsState :=
  ops.foldl (fun t op => toggleLikeDispatch op.1 op.2.1 op.2.2 t) sys

/-- Consistency of the remote collection and the feed: every like-list is
duplicate-free and as long as its likeCount says, and feed copies agree
with the remote document of the same id. -/
def likeConsistent (sys : List Post × PostsState) : Prop :=
  (∀ p ∈ sys.1, p.likeCount = (p.likes.length : Int) ∧ p.likes.Nodup) ∧
  (∀ p ∈ sys.2.feed, ∀ q ∈ sys.1, p.id = q.id → p.likes = q.likes ∧ p.likeCount = q.likeCount) ∧
  (∀ p ∈ sys.2.feed, p.likeCount = (p.likes.length : Int) ∧ p.likes.Nodup)

instance (sys : List Post × PostsState) : Decidable (likeConsistent sys) := by
  unfold likeConsistent
  infer_instance

end PostsSlice

/-! ### FeedScreen (src/screens/FeedScreen.js) -/

namespace FeedScreen

/-- First-occurrence-wins deduplication by id, mirroring
`Array.from(new Set(allPosts.map(p => p.id))).map(id => allPosts.find(...))`:
ids keep their first-occurrence order and each id maps to the first post
carrying it. -/
def dedupById (seen : List String) : List Post → List Post
  | [] => []
  | p :: ps =>
    if seen.contains p.id then dedupById seen ps
    else p :: dedupById (p.id :: seen) ps

/-- The sequence of the three `setPosts` updater calls that `loadFeed` runs
after a successful fetch (FeedScreen.js lines 226-240): replace-or-append,
then append-and-dedup, then a final plain append of the fetched page. -/
def loadFeedSetPosts (reset : Bool) (prev fetched : List Post) : List Post :=
  let s1 := if reset then fetched else prev ++ fetched
  let s2 := dedupById [] (s1 ++ fetched)
  s2 ++ fetched

/-- `CACHE_EXPIRY_MS = 24 * 60 * 60 * 1000` (24 hours). -/
def CACHE_EXPIRY_MS : Int := 24 * 60 * 60 * 1000

/-- `POSTS_PER_PAGE = 10`. -/
def POSTS_PER_PAGE : Nat := 10

/-- The two AsyncStorage keys the screen uses. -/
structure CacheStore where
  cachedFeedPosts : Option (List Post)
  cachedFeedTimestamp : Option Int
deriving DecidableEq, Repr

/-- `loadCachedPosts`: yields the cached snapshot when both keys are present,
the timestamp is within the freshness window and the snapshot is nonempty;
otherwise reports a miss (`none`). -/
def loadCachedPosts (now : Int) (cache : CacheStore) : Option (List Post) :=
  match cache.cachedFeedPosts, cache.cachedFeedTimestamp with
  | some cachedPosts, some timestamp =>
    if now - timestamp < CACHE_EXPIRY_MS then
      if cachedPosts.length > 0 then some cachedPosts else none
    else none
  | _, _ => none

/-- The FeedScreen component state touched by `loadFeed`. -/
structure ScreenState where
  posts : List Post
  loading : Bool
  refreshing : Bool
  loadingMore : Bool
  lastVisible : Option String
  hasMorePosts : Bool
  isFirstLoad : Bool
  offlineMode : Bool
deriving DecidableEq, Repr

/-- The component state at mount. -/
def initialScreenState : ScreenState :=
  { posts := [], loading := true, refreshing := false, loadingMore := false
    lastVisible := none, hasMorePosts := true, isFirstLoad := true, offlineMode := false }

/-- The collaborators `loadFeed` consults: auth user, connectivity flags,
clock, cache store, and the awaited result of the remote feed query. -/
structure Env where
  hasUser : Bool
  isConnected : Bool
  internetReachable : Bool
  now : Int
  cache : CacheStore
  remoteFeedPage : Except String (List Post)
deriving Repr

/-- What one `loadFeed` call did: the final component state, whether the
cache was consulted, and whether a remote query was issued. -/
structure LoadFeedResult where
  state : ScreenState
  cacheRead : Bool
  queryIssued : Bool
deriving DecidableEq, Repr

/-- The `finally` block of `loadFeed`. -/
def finallyBlock (s : ScreenState) : ScreenState :=
  { s with loading := false, refreshing := false, loadingMore := false, isFirstLoad := false }

/-- The online tail of `loadFeed` (the code from the connectivity test at
line 172 through the catch/finally). -/
def loadFeedOnline (env : Env) (reset : Bool) (cacheTried : Bool)
    (s : ScreenState) : LoadFeedResult :=
  if env.isConnected && env.internetReachable then
    match env.remoteFeedPage with
    | .error _ => { state := finallyBlock s, cacheRead := cacheTried, queryIssued := true }
    | .ok fetchedPosts =>
      { state := finallyBlock { s with
          posts := loadFeedSetPosts reset s.posts fetchedPosts
          lastVisible := (fetchedPosts.getLast?).map Post.id
          hasMorePosts := fetchedPosts.length == POSTS_PER_PAGE
          offlineMode := false }
        cacheRead := cacheTried, queryIssued := true }
  else
    { state := finallyBlock { s with offlineMode := true }
      cacheRead := cacheTried, queryIssued := false }

/-- `loadFeed(reset, silent)` of FeedScreen.js, including the guard of lines
138-139 exactly as written: the call returns immediately (before the
try/catch/finally and before any cache read) whenever there is no user or
`isConnected` is false, regardless of `silent`. -/
def loadFeed (env : Env) (reset silent : Bool) (s : ScreenState) : LoadFeedResult :=
  if !env.hasUser || (!env.isConnected && !silent) || (!env.isConnected && silent) then
    { state := s, cacheRead := false, queryIssued := false }
  else if !env.hasUser || (!env.isConnected && !silent) then
    { state := s, cacheRead := false, queryIssued := false }
  else
    let s1 :=
      if !silent then
        if reset then
          if s.isFirstLoad then { s with loading := true } else { s with refreshing := true }
        else { s with loadingMore := true }
      else s
    if !env.isConnected && reset then
      match loadCachedPosts env.now env.cache with
      | some cachedPosts =>
        { state := finallyBlock { s1 with posts := cachedPosts, offlineMode := true }
          cacheRead := true, queryIssued := false }
      | none => loadFeedOnline env reset true s1
    else loadFeedOnline env reset false s1

/-- `loadMorePosts` (FeedScreen.js lines 280-284): calls `loadFeed(false)`
only when mounted, not already loading more, more posts exist, and not in
offline mode; otherwise does nothing. -/
def loadMorePosts (env : Env) (isMounted : Bool) (s : ScreenState) : LoadFeedResult :=
  if isMounted && !s.loadingMore && s.hasMorePosts && !s.offlineMode then
    loadFeed env false false s
  else
    { state := s, cacheRead := false, queryIssued := false }

/-- The posts query `loadFeed` builds (FeedScreen.js lines 194-211). Here
`connectedUserIds` is the list after the viewer uid was pushed. When it is
nonempty, the filter is `userId in connectedUserIds.slice(0,
Math.min(length, 10))` — only the first ten ids — with limit
`POSTS_PER_PAGE`; there is no unfiltered over-fetch strategy in this
screen. -/
def feedScreenQuery (connectedUserIds : List String) (reset : Bool)
    (lastVisible : Option String) : PostsSlice.PostsQuery :=
  if connectedUserIds.length > 0 then
    { filterIds := some (connectedUserIds.take (min connectedUserIds.length 10))
      limit := POSTS_PER_PAGE
      startAfter := if !reset then lastVisible else none }
  else
    { filterIds := some ["NO_RESULTS"]
      limit := POSTS_PER_PAGE
      startAfter := if !reset then lastVisible else none }

end FeedScreen

/-! ### PaginatedFlatList (src/components/PaginatedFlatList.js) -/

namespace PaginatedFlatList

/-- The component state `fetchMoreData` touches. -/
structure PFLState where
  data : List Post
  loading : Bool
  error : Option String
  lastDoc : Option String
  hasMore : Bool
deriving DecidableEq, Repr

/-- What one `fetchMoreData` call did. -/
structure FetchMoreResult where
  state : PFLState
  queryIssued : Bool
deriving DecidableEq, Repr

/-- `fetchMoreData`: returns immediately when `!hasMore || loading`;
otherwise issues the cursor query and appends the new page to `data`
without dedup. -/
def fetchMoreData (limit : Nat) (remote : Except String (List Post))
    (s : PFLState) : FetchMoreResult :=
  if !s.hasMore || s.loading then { state := s, queryIssued := false }
  else
    match remote with
    | .error msg =>
      { state := { s with loading := false, error := some msg }, queryIssued := true }
    | .ok newDocs =>
      { state := { s with
          data := s.data ++ newDocs
          error := none
          lastDoc := (newDocs.getLast?).map Post.id
          hasMore := newDocs.length == limit
          loading := false }
        queryIssued := true }

end PaginatedFlatList

/-! ### PostCard (src/components/PostCard.js) -/

namespace PostCard

/-- The PostCard local display state for a post (the `isLiked` and
`likeCount` useState hooks). -/
structure CardState where
  isLiked : Bool
  likeCount : Int
deriving DecidableEq, Repr

/-- Result of one `handleLikeToggle` call: the remote post document, the
component display state afterwards, and whether the failure alert was shown
(the catch swallows the error; nothing is rethrown). -/
structure ToggleResult where
  remotePost : Post
  card : CardState
  errorAlertShown : Bool
deriving DecidableEq, Repr

/-- `handleLikeToggle` (PostCard.js lines 451-494): the transaction body
reads the document, stages the remote likes/likeCount update, and also sets
the optimistic component state inside the body; when the commit fails the
catch shows an alert but the component state set in the body is not
reverted. -/
def handleLikeToggle (remotePost : Post) (uid : String) (commitFails : Bool)
    (cs : CardState) : ToggleResult :=
  let userLiked := remotePost.likes.contains uid
  let cs2 : CardState :=
    if userLiked then { isLiked := false, likeCount := cs.likeCount - 1 }
    else { isLiked := true, likeCount := cs.likeCount + 1 }
  if commitFails then
    { remotePost := remotePost, card := cs2, errorAlertShown := true }
  else
    let remotePost2 :=
      if userLiked then
        { remotePost with likes := PostsSlice.arrayRemove remotePost.likes uid
                          likeCount := remotePost.likeCount - 1 }
      else
        { remotePost with likes := PostsSlice.arrayUnion remotePost.likes uid
                          likeCount := remotePost.likeCount + 1 }
    { remotePost := remotePost2, card := cs2, errorAlertShown := false }

end PostCard

/-- A notification as the notification slices store it. -/
structure Notification where
  id : String
  read : Bool
deriving DecidableEq, Repr

/-! ### notificationsSlice, array-based (src/redux/slices/notificationsSlice.js) -/

namespace NotificationsArray

/-- The slice state fields the claim concerns. -/
structure NotifState where
  notifications : List Notification
  unreadCount : Nat
deriving DecidableEq, Repr

/-- The slice's initial state. -/
def initialNotifState : NotifState :=
  { notifications := [], unreadCount := 0 }

/-- The four dispatched actions of the claim. -/
inductive NotifAction where
  | add (n : Notification)
  | reset
  | fetchFulfilled (payload : List Notification)
  | markReadFulfilled (ids : List String)
deriving Repr

/-- One reducer step (notificationsSlice.js lines 104-151). `add` unshifts
the payload and recomputes the unread count; `fetchFulfilled` pushes only
the payload entries whose id is not yet present and adds their unread
count to the running counter; `markReadFulfilled` maps `read := true` over
the listed ids and recomputes; `reset` restores the initial state. -/
def notifReduce (s : NotifState) : NotifAction → NotifState
  | .add n =>
    { notifications := n :: s.notifications
      unreadCount := ((n :: s.notifications).filter (fun m => !m.read)).length }
  | .reset => { notifications := [], unreadCount := 0 }
  | .fetchFulfilled payload =>
    let newNotifications := payload.filter
      (fun n => !(s.notifications.any (fun m => m.id == n.id)))
    { notifications := s.notifications ++ newNotifications
      unreadCount := s.unreadCount + (newNotifications.filter (fun m => !m.read)).length }
  | .markReadFulfilled ids =>
    let l := s.notifications.map
      (fun n => if ids.contains n.id then { n with read := true } else n)
    { notifications := l
      unreadCount := (l.filter (fun m => !m.read)).length }

/-- Folding dispatched actions over the reducer. -/
def notifReduceAll (s : NotifState) (acts : List NotifAction) : NotifState :=
  acts.foldl notifReduce s

/-- unreadCount equals the number of stored notifications that are unread. -/
def unreadInv (s : NotifState) : Prop :=
  s.unreadCount = (s.notifications.filter (fun m => !m.read)).length

instance (s : NotifState) : Decidable (unreadInv s) :=
  show Decidable (s.unreadCount = (s.notifications.filter (fun m => !m.read)).length)
    from inferInstance

/-- No two stored notifications share an id. -/
def idsNodup (s : NotifState) : Prop :=
  s.notifications.Pairwise (fun a b => a.id ≠ b.id)

instance (s : NotifState) : Decidable (idsNodup s) :=
  show Decidable (s.notifications.Pairwise (fun a b => a.id ≠ b.id)) from inferInstance

/-- An action cannot introduce a duplicate id in state `s` when an added
notification carries an id not yet present and a fetched payload has no
two entries with the same id. -/
def idSafeAction (s : NotifState) : NotifAction → Prop
  | .add n => ∀ m ∈ s.notifications, m.id ≠ n.id
  | .fetchFulfilled payload => payload.Pairwise (fun a b => a.id ≠ b.id)
  | _ => True

instance (s : NotifState) (a : NotifAction) : Decidable (idSafeAction s a) :=
  match a with
  | .add n => show Decidable (∀ m ∈ s.notifications, m.id ≠ n.id) from inferInstance
  | .reset => .isTrue trivial
  | .fetchFulfilled payload =>
      show Decidable (payload.Pairwise (fun a b => a.id ≠ b.id)) from inferInstance
  | .markReadFulfilled _ => .isTrue trivial

/-- A run of actions, each id-safe in the state it is applied to. -/
def idSafeRun (s : NotifState) : List NotifAction → Prop
  | [] => True
  | a :: acts => idSafeAction s a ∧ idSafeRun (notifReduce s a) acts

end NotificationsArray

/-! ### notificationsSlice, Map/object-based (src/unnamed/part_005) -/

namespace NotificationsMap

/-- The JavaScript value stored at `state.notifications`: either a plain
object literal (as in the slice's `initialState`) or a `Map` (as
`resetNotifications` leaves it). Only a `Map` has the `.set/.has/.get/
.delete` methods. -/
inductive NotifStore where
  | obj (entries : List (String × Notification))
  | map (entries : List (String × Notification))
deriving DecidableEq, Repr

/-- Keyed insertion into Map entries: replace the value when the key is
present, else append. -/
def setEntry (es : List (String × Notification)) (k : String) (v : Notification) :
    List (String × Notification) :=
  if es.any (fun e => e.1 == k) then es.map (fun e => if e.1 == k then (k, v) else e)
  else es ++ [(k, v)]

/-- Calling `.set(k, v)` on the stored value: a TypeError unless the value
is a Map. -/
def jsSet (store : NotifStore) (k : String) (v : Notification) :
    Except String NotifStore :=
  match store with
  | .obj _ => .error "TypeError: state.notifications.set is not a function"
  | .map es => .ok (.map (setEntry es k v))

/-- The slice state. -/
structure NotifMapState where
  notifications : NotifStore
  unreadCount : Nat
deriving DecidableEq, Repr

/-- `initialState` of the slice (part_005 lines 11-17): `notifications` is
the plain object literal, which supports none of the Map methods the
reducers call. -/
def initialState : NotifMapState :=
  { notifications := .obj [], unreadCount := 0 }

/-- The `addNotification` reducer (part_005 lines 178-184): invokes
`state.notifications.set(payload.id, payload)` and increments the unread
counter; on the initial plain-object store the `.set` call is a TypeError. -/
def addNotification (s : NotifMapState) (n : Notification) :
    Except String NotifMapState :=
  match jsSet s.notifications n.id n with
  | .error e => .error e
  | .ok store2 => .ok { s with notifications := store2, unreadCount := s.unreadCount + 1 }

/-- `.set` folded over a fetched payload, stopping at the first TypeError. -/
def setAll (store : NotifStore) : List Notification → Except String NotifStore
  | [] => .ok store
  | n :: rest =>
    match jsSet store n.id n with
    | .error e => .error e
    | .ok st2 => setAll st2 rest

/-- `Object.values` of the stored value: the field values of a plain
object, but the empty list for a `Map` (a Map has no enumerable own
properties). -/
def objValues (store : NotifStore) : List Notification :=
  match store with
  | .obj es => es.map (fun e => e.2)
  | .map _ => []

/-- The `fetchNotifications.fulfilled` reducer (part_005 lines 211-225):
`payload.notifications.forEach(n => state.notifications.set(n.id, n))`,
then `unreadCount = Object.values(state.notifications).filter(...)`. On the
initial plain-object store the first `.set` call is a TypeError. -/
def fetchFulfilled (s : NotifMapState) (payload : List Notification) :
    Except String NotifMapState :=
  match setAll s.notifications payload with
  | .error e => .error e
  | .ok st2 =>
    .ok { s with notifications := st2
                 unreadCount := ((objValues st2).filter (fun m => !m.read)).length }

end NotificationsMap

/-! ### Concrete sample posts used by the closed theorems -/

/-- Sample post by author alice. -/
def post1 : Post :=
  { id := "p1", userId := "alice", timestamp := 5, likes := [], likeCount := 0, commentCount := 0 }

/-- Sample post with timestamp 5. -/
def postX : Post :=
  { id := "x", userId := "u1", timestamp := 5, likes := [], likeCount := 0, commentCount := 0 }

/-- Sample post with timestamp 3. -/
def postY : Post :=
  { id := "y", userId := "u2", timestamp := 3, likes := [], likeCount := 0, commentCount := 0 }

/-- Sample post with timestamp 2. -/
def postZ : Post :=
  { id := "z", userId := "u1", timestamp := 2, likes := [], likeCount := 0, commentCount := 0 }

/-- Environment for the offline initial load: user signed in, connectivity
down, and a fresh (1 second old, well within 24 hours) nonempty cached
snapshot holding `post1`. -/
def offlineEnv : FeedScreen.Env :=
  { hasUser := true, isConnected := false, internetReachable := false
    now := 1000000
    cache := { cachedFeedPosts := some [post1], cachedFeedTimestamp := some 999000 }
    remoteFeedPage := .error "network request failed" }

/-- A FeedScreen state with a load-more fetch already outstanding. -/
def busyScreenState : FeedScreen.ScreenState :=
  { FeedScreen.initialScreenState with
      posts := [postX], loading := false, isFirstLoad := false, loadingMore := true }

/-- A PaginatedFlatList state with a fetch already outstanding. -/
def busyPflState : PaginatedFlatList.PFLState :=
  { data := [postX], loading := true, error := none, lastDoc := some "x", hasMore := true }

/-- Twenty-five followed user ids. -/
def followed25 : List String :=
  ["f01", "f02", "f03", "f04", "f05", "f06", "f07", "f08", "f09", "f10",
   "f11", "f12", "f13", "f14", "f15", "f16", "f17", "f18", "f19", "f20",
   "f21", "f22", "f23", "f24", "f25"]

/-- Thirty remote posts, all authored by the followed user f01. -/
def thirtyFollowedPosts : List Post :=
  (List.range 30).map (fun i =>
    { id := toString i, userId := "f01", timestamp := 30 - (i : Int)
      likes := [], likeCount := 0, commentCount := 0 })

/-- Thirty remote posts, all authored by a user nobody follows. -/
def thirtyStrangerPosts : List Post :=
  (List.range 30).map (fun i =>
    { id := toString i, userId := "stranger", timestamp := 30 - (i : Int)
      likes := [], likeCount := 0, commentCount := 0 })

/-- A posts-slice state whose feed holds exactly `post1`. -/
def feedStateP1 : PostsSlice.PostsState :=
  { feed := [post1], status := "idle", lastDoc := none, hasMore := true, refreshing := false }

/-- The post p1 already liked by user w: likes `["w"]`, likeCount 1. -/
def postW : Post :=
  { id := "p1", userId := "alice", timestamp := 5, likes := ["w"], likeCount := 1
    commentCount := 0 }

/-- A posts-slice state whose feed holds exactly `postW`, agreeing with the
remote document (a state one fulfilled fetch produces). -/
def feedStateW : PostsSlice.PostsState :=
  { feed := [postW], status := "idle", lastDoc := none, hasMore := true, refreshing := false }

/-- The mixed-path scenario: viewer v likes `postW` through PostCard's
transaction (which updates only the remote document, never the Redux feed),
then dispatches the Redux `toggleLike` on the same post. The pair is the
final (remote collection, slice state). -/
def mixedLikeFinal : List Post × PostsSlice.PostsState :=
  PostsSlice.toggleLikeDispatch "p1" "v" false
    ([(PostCard.handleLikeToggle postW "v" false
        { isLiked := false, likeCount := 1 }).remotePost],
     feedStateW)

/-- The action sequence of the C9 witness: an add, an overlapping fetch,
and a mark-as-read. -/
def notifWitnessActs : List NotificationsArray.NotifAction :=
  [.add { id := "a", read := false },
   .fetchFulfilled [{ id := "a", read := true }, { id := "b", read := false }],
   .markReadFulfilled ["a"]]

end HealthConnect

namespace HealthConnect

/-! ### Theorems -/

/-- C1: the dedup invariant fails in the code. A single successful reset
load of the one-post page `[post1]` leaves the FeedScreen `posts` state as
`[post1, post1]` (the final `setPosts(prev => [...prev, ...fetchedPosts])`
re-appends the page right after the dedup step), and in the Redux slice two
overlapping fulfilled fetches of the same page leave `feed` with the id
"p1" twice. Both cited feed states carry a duplicate id, contradicting the
claimed invariant that no two entries share an id. -/
theorem c1_feed_contains_duplicate_ids :
    (FeedScreen.loadFeedSetPosts true [] [post1]).map Post.id = ["p1", "p1"] ∧
    ¬ ((FeedScreen.loadFeedSetPosts true [] [post1]).map Post.id).Nodup ∧
    ((PostsSlice.applyFeedActions PostsSlice.initialPostsState
        [.fetchFulfilled ⟨[post1], some "p1", true⟩,
         .fetchFulfilled ⟨[post1], some "p1", false⟩]).feed.map Post.id = ["p1", "p1"]) := by
  refine ⟨rfl, ?_, rfl⟩
  decide

/-- Helper: the toggleLike reducer does not touch a post's timestamp. -/
theorem updatePostLike_timestamp (postId userId : String) (b : Bool) (p : Post) :
    (PostsSlice.updatePostLike postId userId b p).timestamp = p.timestamp := by
  unfold PostsSlice.updatePostLike
  split
  · rfl
  · split <;> rfl

/-- Helper: the addComment reducer does not touch a post's timestamp. -/
theorem addCommentToPost_timestamp (postId : String) (p : Post) :
    (PostsSlice.addCommentToPost postId p).timestamp = p.timestamp := by
  unfold PostsSlice.addCommentToPost
  split <;> rfl

/-- Helper: the deleteComment reducer does not touch a post's timestamp. -/
theorem removeCommentFromPost_timestamp (postId : String) (p : Post) :
    (PostsSlice.removeCommentFromPost postId p).timestamp = p.timestamp := by
  unfold PostsSlice.removeCommentFromPost
  split <;> rfl

/-- Helper: the addComment reducer does not touch a post's id. -/
theorem addCommentToPost_id (postId : String) (p : Post) :
    (PostsSlice.addCommentToPost postId p).id = p.id := by
  unfold PostsSlice.addCommentToPost
  split <;> rfl

/-- Helper: the deleteComment reducer does not touch a post's id. -/
theorem removeCommentFromPost_id (postId : String) (p : Post) :
    (PostsSlice.removeCommentFromPost postId p).id = p.id := by
  unfold PostsSlice.removeCommentFromPost
  split <;> rfl

/-- Helper: `updatePostLike` never changes a post's id. -/
theorem updatePostLike_id (postId userId : String) (b : Bool) (p : Post) :
    (PostsSlice.updatePostLike postId userId b p).id = p.id := by
  unfold PostsSlice.updatePostLike
  split
  · rfl
  · split <;> rfl

/-- Helper: a map of the feed through a function preserving timestamps and
ids keeps the (createdAt desc, id desc)-up-to-duplicates ordering. -/
theorem specOrderedLe_map {l : List Post} {f : Post → Post}
    (hts : ∀ p, (f p).timestamp = p.timestamp) (hid : ∀ p, (f p).id = p.id)
    (h : PostsSlice.specOrderedLe l) : PostsSlice.specOrderedLe (l.map f) := by
  unfold PostsSlice.specOrderedLe at *
  rw [List.pairwise_map]
  refine h.imp (fun hab => ?_)
  unfold PostsSlice.specLe at *
  rw [hts, hts, hid, hid]
  exact hab

/-- Helper: one admissible reducer step keeps the feed ordered by
(createdAt desc, id desc) up to duplicates. -/
theorem applyFeedAction_specOrderedLe {s : PostsSlice.PostsState}
    {a : PostsSlice.FeedAction}
    (h : PostsSlice.specOrderedLe s.feed) (ha : PostsSlice.admissibleAction s a) :
    PostsSlice.specOrderedLe (PostsSlice.applyFeedAction s a).feed := by
  cases a with
  | setRefreshing b => exact h
  | clearFeed => exact List.Pairwise.nil
  | fetchFulfilled payload =>
    obtain ⟨hp, hb⟩ := ha
    show PostsSlice.specOrderedLe (PostsSlice.fetchFeedPostsFulfilled s payload).feed
    unfold PostsSlice.fetchFeedPostsFulfilled
    by_cases hr : s.refreshing
    · simpa [hr] using hp
    · rw [Bool.not_eq_true] at hr
      simp only [hr, Bool.false_eq_true, if_false]
      unfold PostsSlice.specOrderedLe at *
      rw [List.pairwise_append]
      exact ⟨h, hp, hb hr⟩
  | createPostFulfilled p =>
    show PostsSlice.specOrderedLe (p :: s.feed)
    unfold PostsSlice.specOrderedLe at *
    rw [List.pairwise_cons]
    exact ⟨ha, h⟩
  | toggleLikeFulfilled postId userId isLiked =>
    exact specOrderedLe_map (updatePostLike_timestamp postId userId isLiked)
      (updatePostLike_id postId userId isLiked) h
  | addCommentFulfilled postId =>
    exact specOrderedLe_map (addCommentToPost_timestamp postId)
      (addCommentToPost_id postId) h
  | deleteCommentFulfilled postId =>
    exact specOrderedLe_map (removeCommentFromPost_timestamp postId)
      (removeCommentFromPost_id postId) h
  | deletePostFulfilled postId =>
    exact List.Pairwise.sublist (List.filter_sublist _) h

/-- C2 counterexample: the strict (createdAt desc, id desc) order fails on
a reachable state. Two fulfilled fetches whose pages overlap on `post1` —
each page on its own sorted by (createdAt desc, id desc) as the collaborator
guarantees, the overlap arising from a createdAt tie at the pagination
cursor, the very scenario the spec anticipates — leave the feed as
`[post1, post1]`, because the fulfilled reducer concatenates without dedup.
A sequence repeating the same (createdAt, id) key cannot be strictly
ordered, so the order invariant is violated after this refresh-then-loadMore
combination. -/
theorem c2_counterexample_duplicate_breaks_order :
    (PostsSlice.applyFeedActions PostsSlice.initialPostsState
        [.fetchFulfilled ⟨[post1], some "p1", true⟩,
         .fetchFulfilled ⟨[post1], some "p1", false⟩]).feed = [post1, post1] ∧
    ¬ PostsSlice.specOrdered
      (PostsSlice.applyFeedActions PostsSlice.initialPostsState
        [.fetchFulfilled ⟨[post1], some "p1", true⟩,
         .fetchFulfilled ⟨[post1], some "p1", false⟩]).feed := by
  constructor
  · rfl
  · intro hso
    have := (List.pairwise_cons.mp hso).1 post1 (by simp)
    revert this
    decide

/-- C2 amended: the ordering holds up to duplicates. Because overlapping
pages may insert the same post twice (the reducers never dedup), the strict
(createdAt desc, id desc) order fails on reachable states; what holds is
the non-strict version: if the feed is ordered by (createdAt desc, id desc)
up to duplicates and every dispatched action is admissible (each fetched
page is itself so ordered — the FeedPage contract — and no newer than the
posts already present unless it replaces the feed on refresh, and an
optimistically created post is at least as new as the whole feed), then
after any sequence of refresh, load-more, new-post, like-toggle,
comment-count and delete actions every earlier feed entry's (createdAt, id)
key is still lexicographically at least every later entry's. -/
theorem c2_feed_order_preserved (s : PostsSlice.PostsState)
    (acts : List PostsSlice.FeedAction)
    (h0 : PostsSlice.specOrderedLe s.feed) (hadm : PostsSlice.admissibleRun s acts) :
    PostsSlice.specOrderedLe (PostsSlice.applyFeedActions s acts).feed := by
  induction acts generalizing s with
  | nil => exact h0
  | cons a acts ih =>
    obtain ⟨ha, hrun⟩ := hadm
    exact ih _ (applyFeedAction_specOrderedLe h0 ha) hrun

/-- C2 amended, witness: a concrete refresh, like-toggle, load-more run,
with the load-more page repeating the tail post `postY` (a cursor-tie
overlap) before `postZ`, keeps the feed ordered by (createdAt desc, id
desc) up to duplicates. -/
theorem c2_feed_order_preserved_witness :
    PostsSlice.specOrderedLe (PostsSlice.applyFeedActions PostsSlice.initialPostsState
      [.fetchFulfilled ⟨[postX, postY], some "y", true⟩,
       .toggleLikeFulfilled "x" "alice" true,
       .fetchFulfilled ⟨[postY, postZ], none, false⟩]).feed :=
  c2_feed_order_preserved _ _ (by decide)
    ⟨⟨by decide, by decide⟩, trivial, ⟨by decide, by decide⟩, trivial⟩

/-- C3: the offline cache fallback is dead code on the initial load. With
the user signed in, connectivity down, and a fresh nonempty cached snapshot
holding `post1`, the initial `loadFeed(reset = true)` call hits the guard of
line 138 (which returns whenever `isConnected` is false, for both silent and
non-silent calls) and returns with the state untouched: `posts` stays empty,
`offlineMode` stays false, and the cache is never read — even though
`loadCachedPosts` would have produced the snapshot, as the second conjunct
shows. The claim says the load should return the cached items with
`offline = true`. -/
theorem c3_offline_initial_load_ignores_fresh_cache :
    FeedScreen.loadFeed offlineEnv true false FeedScreen.initialScreenState =
      { state := FeedScreen.initialScreenState, cacheRead := false, queryIssued := false } ∧
    FeedScreen.loadCachedPosts offlineEnv.now offlineEnv.cache = some [post1] := by
  exact ⟨rfl, rfl⟩

/-- C4 counterexample: the claim fails as stated. First, the FeedScreen
initial fetch with 25 followed users plus the viewer does not switch to an
unfiltered triple-size query: it issues a query filtered to the FIRST ten
connected ids with limit 10 (not at least 30). Second, even the postsSlice
thunk does not return exactly 10 items unconditionally: when the unfiltered
triple-size page contains no posts by allowed authors, it returns 0 items. -/
theorem c4_counterexample_fanout :
    (FeedScreen.feedScreenQuery (followed25 ++ ["viewer"]) true none).filterIds =
      some (followed25.take 10) ∧
    (FeedScreen.feedScreenQuery (followed25 ++ ["viewer"]) true none).limit = 10 ∧
    (PostsSlice.fetchFeedPosts "viewer" followed25 [] 10 none
      (fun _ => thirtyStrangerPosts)).posts.length = 0 := by
  refine ⟨?_, rfl, ?_⟩ <;> decide

/-- C4 amended: the fan-out truncation policy holds for the postsSlice
`fetchFeedPosts` thunk (not for the FeedScreen query, which truncates the
filter to its first ten ids instead). Whenever the allowed id set
(connections minus blocked, plus the viewer) has more than 10 elements, the
thunk issues an unfiltered query for 3 times the page size; and provided the
returned page contains at least a page worth of posts by allowed authors,
the thunk returns exactly the page size many posts, each authored by an
allowed user. -/
theorem c4_fanout_truncation (userId : String) (connectedUserIds blockedUsers : List String)
    (limit : Nat) (lastDoc : Option String) (remote : PostsSlice.PostsQuery → List Post)
    (h10 : 10 < (PostsSlice.feedAllUserIds userId connectedUserIds blockedUsers).length)
    (habundant : limit ≤
      ((remote (PostsSlice.fetchFeedPostsQuery userId connectedUserIds blockedUsers
          limit lastDoc)).filter
        (fun d => (PostsSlice.feedAllUserIds userId connectedUserIds
          blockedUsers).contains d.userId)).length) :
    (PostsSlice.fetchFeedPostsQuery userId connectedUserIds blockedUsers
        limit lastDoc).filterIds = none ∧
    (PostsSlice.fetchFeedPostsQuery userId connectedUserIds blockedUsers
        limit lastDoc).limit = limit * 3 ∧
    (PostsSlice.fetchFeedPosts userId connectedUserIds blockedUsers
        limit lastDoc remote).posts.length = limit ∧
    ∀ p ∈ (PostsSlice.fetchFeedPosts userId connectedUserIds blockedUsers
        limit lastDoc remote).posts,
      (PostsSlice.feedAllUserIds userId connectedUserIds blockedUsers).contains
        p.userId = true := by
  have hle : ¬ (PostsSlice.feedAllUserIds userId connectedUserIds blockedUsers).length ≤ 10 :=
    Nat.not_le.mpr h10
  refine ⟨?_, ?_, ?_, ?_⟩
  · unfold PostsSlice.fetchFeedPostsQuery
    rw [if_neg hle]
  · unfold PostsSlice.fetchFeedPostsQuery
    rw [if_neg hle]
  · unfold PostsSlice.fetchFeedPosts
    simp only [if_neg hle]
    rw [List.length_take]
    exact Nat.min_eq_left habundant
  · intro p hp
    unfold PostsSlice.fetchFeedPosts at hp
    simp only [if_neg hle] at hp
    have hp2 : p ∈ (remote (PostsSlice.fetchFeedPostsQuery userId connectedUserIds
        blockedUsers limit lastDoc)).filter
        (fun d => (PostsSlice.feedAllUserIds userId connectedUserIds
          blockedUsers).contains d.userId) :=
      List.mem_of_mem_take hp
    have hp3 := List.of_mem_filter hp2
    simpa using hp3

/-- C4 amended, witness: 25 followed users, empty block list, page size 10,
and an unfiltered page of 30 posts by the followed user f01: the query is
unfiltered with limit 30 and the thunk returns 10 posts, all by allowed
authors. -/
theorem c4_fanout_truncation_witness :
    (PostsSlice.fetchFeedPostsQuery "viewer" followed25 [] 10 none).filterIds = none ∧
    (PostsSlice.fetchFeedPostsQuery "viewer" followed25 [] 10 none).limit = 30 ∧
    (PostsSlice.fetchFeedPosts "viewer" followed25 [] 10 none
      (fun _ => thirtyFollowedPosts)).posts.length = 10 ∧
    ∀ p ∈ (PostsSlice.fetchFeedPosts "viewer" followed25 [] 10 none
      (fun _ => thirtyFollowedPosts)).posts,
      (PostsSlice.feedAllUserIds "viewer" followed25 []).contains p.userId = true :=
  c4_fanout_truncation "viewer" followed25 [] 10 none (fun _ => thirtyFollowedPosts)
    (by decide) (by decide)

/-- Helper: mapping a function that fixes every list element is the
identity. -/
theorem map_eq_self_of_mem {α : Type} {l : List α} {f : α → α}
    (h : ∀ a ∈ l, f a = a) : l.map f = l := by
  induction l with
  | nil => rfl
  | cons x xs ih =>
    have ih2 := ih (fun a ha => h a (List.mem_cons_of_mem x ha))
    rw [List.map_cons, h x (List.mem_cons_self x xs), ih2]

/-- Helper: after replacing every id-matching post by `post2`, the first
id-matching entry is `post2`. -/
theorem find?_map_update {postId : String} {post2 : Post}
    (h2 : (post2.id == postId) = true) :
    ∀ (db : List Post) (p0 : Post),
      db.find? (fun p => p.id == postId) = some p0 →
      (db.map (fun p => if p.id == postId then post2 else p)).find?
        (fun p => p.id == postId) = some post2 := by
  intro db
  induction db with
  | nil =>
    intro p0 h
    exact absurd h (by simp)
  | cons q db ih =>
    intro p0 h
    by_cases hq : (q.id == postId) = true
    · rw [List.map_cons, if_pos hq]
      exact List.find?_cons_of_pos _ h2
    · have hqf : (q.id == postId) = false := by simpa using hq
      rw [List.map_cons, if_neg hq]
      simp only [List.find?_cons, hqf] at h
      simp only [List.find?_cons, hqf]
      exact ih p0 h

/-- Helper: removing a value from a like-list that gained it as its only
occurrence restores the original list. -/
theorem filter_bne_append_self {l : List String} {u : String} (h : u ∉ l) :
    (l ++ [u]).filter (fun y => y != u) = l := by
  rw [List.filter_append]
  have h1 : l.filter (fun y => y != u) = l := by
    rw [List.filter_eq_self]
    intro b hb
    simp only [bne_iff_ne, ne_eq, decide_eq_true_eq]
    exact fun hbu => h (hbu ▸ hb)
  rw [h1]
  simp

/-- Helper: unliking right after liking restores a post, provided the
viewer had not liked it and its count was not negative. -/
theorem updatePostLike_unlike_like {postId u : String} {p : Post}
    (hl : p.id = postId → (u ∉ p.likes ∧ 0 ≤ p.likeCount)) :
    PostsSlice.updatePostLike postId u false (PostsSlice.updatePostLike postId u true p) = p := by
  by_cases hid : p.id = postId
  · obtain ⟨hu, hc⟩ := hl hid
    unfold PostsSlice.updatePostLike
    simp only [hid, bne_self_eq_false, Bool.false_eq_true, if_false, if_true]
    rw [filter_bne_append_self hu]
    have hcount : max 0 (p.likeCount + 1 - 1) = p.likeCount := by
      rw [Int.add_sub_cancel]
      exact max_eq_right hc
    rw [hcount, ← hid]
  · have hbne : (p.id != postId) = true := by simpa [bne_iff_ne] using hid
    unfold PostsSlice.updatePostLike
    rw [if_pos hbne, if_pos hbne]

/-- C5 counterexample: the like operation of the code is `toggleLike`; a
second call without an intervening unlike is not a no-op. Starting from the
unliked post `post1` (remote collection `[post1]`, feed `[post1]`), one
dispatch leaves likeCount 1, but a second dispatch toggles back to 0, so
applying the operation twice differs from applying it once. -/
theorem c5_counterexample_second_like_not_noop :
    PostsSlice.toggleLikeDispatch "p1" "v" false
        (PostsSlice.toggleLikeDispatch "p1" "v" false ([post1], feedStateP1)) ≠
      PostsSlice.toggleLikeDispatch "p1" "v" false ([post1], feedStateP1) ∧
    (PostsSlice.toggleLikeDispatch "p1" "v" false
        ([post1], feedStateP1)).2.feed.map Post.likeCount = [1] ∧
    (PostsSlice.toggleLikeDispatch "p1" "v" false
        (PostsSlice.toggleLikeDispatch "p1" "v" false
          ([post1], feedStateP1))).2.feed.map Post.likeCount = [0] := by
  refine ⟨by decide, rfl, rfl⟩

/-- C5 amended: `toggleLike` is an involution, not an idempotent like: from
a consistent state in which the viewer has not liked the post (remote first
match `p0` with the viewer absent from its likes, every remote copy of the
id equal to `p0`, and feed copies unliked with non-negative counts), a
second consecutive dispatch reverts the first, returning exactly the
pre-state — the count is not double-incremented, but the second call is an
unlike rather than a no-op, as the single-dispatch thunk result in the
second conjunct shows. -/
theorem c5_like_toggle_involution (db : List Post) (s : PostsSlice.PostsState)
    (postId userId : String) (p0 : Post)
    (hfind : db.find? (fun p => p.id == postId) = some p0)
    (hall : ∀ q ∈ db, q.id = postId → q = p0)
    (hnl : userId ∉ p0.likes)
    (hfeed : ∀ p ∈ s.feed, p.id = postId → (userId ∉ p.likes ∧ 0 ≤ p.likeCount)) :
    PostsSlice.toggleLikeDispatch postId userId false
        (PostsSlice.toggleLikeDispatch postId userId false (db, s)) = (db, s) ∧
    PostsSlice.toggleLikeThunk db postId userId false =
      .ok (db.map (fun p => if p.id == postId then
        { p0 with likes := p0.likes ++ [userId], likeCount := p0.likeCount + 1 } else p),
        true) := by
  have hpid : p0.id = postId := by
    have := List.find?_some hfind
    simpa using this
  have hnlb : p0.likes.contains userId = false := by
    simpa using hnl
  have h1 : PostsSlice.toggleLikeThunk db postId userId false =
      .ok (db.map (fun p => if p.id == postId then
        { p0 with likes := p0.likes ++ [userId], likeCount := p0.likeCount + 1 } else p),
        true) := by
    simp [PostsSlice.toggleLikeThunk, PostsSlice.toggledPost, PostsSlice.arrayUnion, hfind, hnl]
  refine ⟨?_, h1⟩
  have hd1 : PostsSlice.toggleLikeDispatch postId userId false (db, s) =
      (db.map (fun p => if p.id == postId then
        { p0 with likes := p0.likes ++ [userId], likeCount := p0.likeCount + 1 } else p),
       { s with feed := s.feed.map (PostsSlice.updatePostLike postId userId true) }) := by
    simp [PostsSlice.toggleLikeDispatch, h1, PostsSlice.applyFeedAction]
  have h2find : (db.map (fun p => if p.id == postId then
      { p0 with likes := p0.likes ++ [userId], likeCount := p0.likeCount + 1 } else p)).find?
      (fun p => p.id == postId) =
      some { p0 with likes := p0.likes ++ [userId], likeCount := p0.likeCount + 1 } :=
    find?_map_update (by simpa using hpid) db p0 hfind
  have hcontains2 : (p0.likes ++ [userId]).contains userId = true := by simp
  have h2 : PostsSlice.toggleLikeThunk
      (db.map (fun p => if p.id == postId then
        { p0 with likes := p0.likes ++ [userId], likeCount := p0.likeCount + 1 } else p))
      postId userId false =
      .ok ((db.map (fun p => if p.id == postId then
        { p0 with likes := p0.likes ++ [userId], likeCount := p0.likeCount + 1 } else p)).map
        (fun p => if p.id == postId then
          { p0 with likes := PostsSlice.arrayRemove (p0.likes ++ [userId]) userId
                    likeCount := p0.likeCount + 1 - 1 } else p),
        false) := by
    unfold PostsSlice.toggleLikeThunk
    rw [h2find]
    simp only [PostsSlice.toggledPost, Bool.false_eq_true, if_false, hcontains2, if_true,
      Bool.not_true]
  rw [hd1]
  unfold PostsSlice.toggleLikeDispatch
  rw [h2]
  simp only [PostsSlice.applyFeedAction]
  have hdb : ((db.map (fun p => if p.id == postId then
      { p0 with likes := p0.likes ++ [userId], likeCount := p0.likeCount + 1 } else p)).map
      (fun p => if p.id == postId then
        { p0 with likes := PostsSlice.arrayRemove (p0.likes ++ [userId]) userId
                  likeCount := p0.likeCount + 1 - 1 } else p)) = db := by
    rw [List.map_map]
    apply map_eq_self_of_mem
    intro p hp
    by_cases hpq : (p.id == postId) = true
    · have hpeq : p = p0 := hall p hp (by simpa using hpq)
      simp only [Function.comp_apply, if_pos hpq, if_pos (show (({ p0 with
        likes := p0.likes ++ [userId], likeCount := p0.likeCount + 1 } : Post).id == postId) = true
        from by simpa using hpid)]
      rw [PostsSlice.arrayRemove, filter_bne_append_self hnl, Int.add_sub_cancel, hpeq]
    · simp only [Function.comp_apply, if_neg hpq]
  have hfeed2 : (s.feed.map (PostsSlice.updatePostLike postId userId true)).map
      (PostsSlice.updatePostLike postId userId false) = s.feed := by
    rw [List.map_map]
    apply map_eq_self_of_mem
    intro p hp
    exact updatePostLike_unlike_like (hfeed p hp)
  rw [hdb, hfeed2]

/-- C5 amended, witness: the concrete unliked post `post1` with viewer v:
two dispatches restore the original remote collection and feed state, while
one dispatch produces the liked post. -/
theorem c5_like_toggle_involution_witness :
    PostsSlice.toggleLikeDispatch "p1" "v" false
        (PostsSlice.toggleLikeDispatch "p1" "v" false ([post1], feedStateP1)) =
      ([post1], feedStateP1) ∧
    PostsSlice.toggleLikeThunk [post1] "p1" "v" false =
      .ok ([post1].map (fun p => if p.id == "p1" then
        { post1 with likes := post1.likes ++ ["v"], likeCount := post1.likeCount + 1 } else p),
        true) :=
  c5_like_toggle_involution [post1] feedStateP1 "p1" "v" post1
    (by decide) (by decide) (by decide) (by decide)

/-- C6 counterexample: the rollback half of the claim fails in PostCard.
With remote post `post1` unliked and display state (isLiked = false,
likeCount = 0), a `handleLikeToggle` whose transaction commit fails leaves
the display state at (isLiked = true, likeCount = 1): the optimistic update
made inside the transaction body is not reverted by the catch, so the final
likeCount differs from its pre-mutation value. -/
theorem c6_counterexample_postcard_no_rollback :
    PostCard.handleLikeToggle post1 "v" true { isLiked := false, likeCount := 0 } =
      { remotePost := post1, card := { isLiked := true, likeCount := 1 }
        errorAlertShown := true } ∧
    (PostCard.handleLikeToggle post1 "v" true
      { isLiked := false, likeCount := 0 }).card.likeCount ≠ 0 := by
  exact ⟨rfl, by decide⟩

/-- C6 amended: in the Redux path the property holds — a failed toggleLike
leaves the remote collection and the slice state exactly as they were
(there is no optimistic phase and no rejected-case reducer), and the
failure surfaces as a rejected value (`Except.error`), not an exception; in
the PostCard path the failure is likewise non-fatal (alert only) but the
optimistic component state is not rolled back. -/
theorem c6_slice_failure_keeps_state :
    ∀ (db : List Post) (s : PostsSlice.PostsState) (postId userId : String),
      PostsSlice.toggleLikeDispatch postId userId true (db, s) = (db, s) ∧
      PostsSlice.toggleLikeThunk db postId userId true =
        .error "network request failed" := by
  intro db s postId userId
  exact ⟨rfl, rfl⟩

/-- Helper: removing a value absent from a list changes nothing. -/
theorem filter_bne_eq_self {l : List String} {u : String} (h : u ∉ l) :
    l.filter (fun y => y != u) = l := by
  rw [List.filter_eq_self]
  intro b hb
  simp only [bne_iff_ne, ne_eq, decide_eq_true_eq]
  exact fun hbu => h (hbu ▸ hb)

/-- Helper: filtering one occurrence out of a duplicate-free list drops its
length by exactly one. -/
theorem length_filter_bne_of_nodup {l : List String} {u : String}
    (hn : l.Nodup) (hm : u ∈ l) :
    (l.filter (fun y => y != u)).length + 1 = l.length := by
  induction l with
  | nil => cases hm
  | cons x xs ih =>
    rw [List.nodup_cons] at hn
    rcases List.mem_cons.mp hm with hx | hx
    · have hxu : (x != u) = false := by simp [hx]
      have hu2 : u ∉ xs := hx ▸ hn.1
      simp [List.filter_cons, hxu, filter_bne_eq_self hu2]
    · have hxu : (x != u) = true := by
        simp only [bne_iff_ne, ne_eq, decide_eq_true_eq]
        intro hxeq
        exact hn.1 (hxeq ▸ hx)
      have := ih hn.2 hx
      simp [List.filter_cons, hxu]
      omega

/-- Helper: appending a fresh element keeps a list duplicate-free. -/
theorem nodup_append_singleton {l : List String} {u : String}
    (hn : l.Nodup) (h : u ∉ l) : (l ++ [u]).Nodup := by
  rw [List.nodup_append]
  refine ⟨hn, List.nodup_singleton u, ?_⟩
  intro a ha hb
  rw [List.mem_singleton] at hb
  exact h (hb ▸ ha)

/-- Helper: `toggledPost` never changes a post's id. -/
theorem toggledPost_id (userId : String) (p : Post) :
    (PostsSlice.toggledPost userId p).id = p.id := by
  unfold PostsSlice.toggledPost
  split <;> rfl

/-- Helper: `updatePostLike` on a post that does not match the id is the
identity. -/
theorem updatePostLike_nonmatch {postId : String} (userId : String) (b : Bool)
    {p : Post} (h : ¬ p.id = postId) :
    PostsSlice.updatePostLike postId userId b p = p := by
  unfold PostsSlice.updatePostLike
  rw [if_pos (by simpa [bne_iff_ne] using h)]

/-- Helper: the toggled remote document keeps likeCount equal to the length
of its duplicate-free like-list. -/
theorem toggledPost_inv (userId : String) {p0 : Post}
    (hc : p0.likeCount = (p0.likes.length : Int)) (hn : p0.likes.Nodup) :
    (PostsSlice.toggledPost userId p0).likeCount =
      ((PostsSlice.toggledPost userId p0).likes.length : Int) ∧
    (PostsSlice.toggledPost userId p0).likes.Nodup := by
  unfold PostsSlice.toggledPost
  by_cases hu : p0.likes.contains userId = true
  · have hmem : userId ∈ p0.likes := by simpa using hu
    rw [if_pos hu]
    refine ⟨?_, hn.filter _⟩
    show p0.likeCount - 1 = ((PostsSlice.arrayRemove p0.likes userId).length : Int)
    have hl := length_filter_bne_of_nodup hn hmem
    rw [PostsSlice.arrayRemove, hc]
    omega
  · have hmem : userId ∉ p0.likes := by simpa using hu
    rw [if_neg hu]
    constructor
    · show p0.likeCount + 1 = ((PostsSlice.arrayUnion p0.likes userId).length : Int)
      rw [PostsSlice.arrayUnion, if_neg (by simpa using hmem), hc, List.length_append]
      simp
    · show (PostsSlice.arrayUnion p0.likes userId).Nodup
      rw [PostsSlice.arrayUnion, if_neg (by simpa using hmem)]
      exact nodup_append_singleton hn hmem

/-- Helper: a feed copy that agrees with the remote document on likes and
likeCount is updated by the reducer to agree with the toggled document. -/
theorem updatePostLike_matched (userId : String) {postId : String} {p p0 : Post}
    (hpid : p.id = postId)
    (hlk : p.likes = p0.likes) (hcnt : p.likeCount = p0.likeCount)
    (hc : p0.likeCount = (p0.likes.length : Int)) :
    (PostsSlice.updatePostLike postId userId (!(p0.likes.contains userId)) p).likes =
      (PostsSlice.toggledPost userId p0).likes ∧
    (PostsSlice.updatePostLike postId userId (!(p0.likes.contains userId)) p).likeCount =
      (PostsSlice.toggledPost userId p0).likeCount := by
  have hbne : (p.id != postId) = false := by simp [hpid]
  unfold PostsSlice.updatePostLike PostsSlice.toggledPost
  by_cases hu : p0.likes.contains userId = true
  · have hmem : userId ∈ p0.likes := by simpa using hu
    have hlen : 1 ≤ (p0.likes.length : Int) := by
      have := List.length_pos.mpr (List.ne_nil_of_mem hmem)
      omega
    simp only [hu, Bool.not_true, hbne, Bool.false_eq_true, if_false, if_pos hu]
    constructor
    · show p.likes.filter (fun uid => uid != userId) = PostsSlice.arrayRemove p0.likes userId
      rw [hlk, PostsSlice.arrayRemove]
    · show max 0 (p.likeCount - 1) = p0.likeCount - 1
      rw [hcnt, hc]
      omega
  · simp only [hu, Bool.not_false, hbne, Bool.false_eq_true, if_false, if_neg hu, if_true]
    constructor
    · show p.likes ++ [userId] = PostsSlice.arrayUnion p0.likes userId
      rw [hlk, PostsSlice.arrayUnion, if_neg hu]
    · show p.likeCount + 1 = p0.likeCount + 1
      rw [hcnt]

/-- Helper: one toggleLike dispatch preserves like-consistency of the
remote collection and the feed. -/
theorem toggleLikeDispatch_likeConsistent (postId userId : String) (rf : Bool)
    {sys : List Post × PostsSlice.PostsState}
    (h : PostsSlice.likeConsistent sys) :
    PostsSlice.likeConsistent (PostsSlice.toggleLikeDispatch postId userId rf sys) := by
  obtain ⟨db, s⟩ := sys
  obtain ⟨hdb, hagree, hfeed⟩ := h
  cases rf with
  | true => exact ⟨hdb, hagree, hfeed⟩
  | false =>
    cases hfind : db.find? (fun p => p.id == postId) with
    | none =>
      have heq : PostsSlice.toggleLikeDispatch postId userId false (db, s) = (db, s) := by
        simp only [PostsSlice.toggleLikeDispatch, PostsSlice.toggleLikeThunk,
          Bool.false_eq_true, if_false, hfind]
      rw [heq]
      exact ⟨hdb, hagree, hfeed⟩
    | some p0 =>
      have hp0id : p0.id = postId := by simpa using List.find?_some hfind
      have hp0mem : p0 ∈ db := List.mem_of_find?_eq_some hfind
      obtain ⟨hp0c, hp0n⟩ := hdb p0 hp0mem
      have heq : PostsSlice.toggleLikeDispatch postId userId false (db, s) =
          (db.map (fun p => if p.id == postId then PostsSlice.toggledPost userId p0 else p),
           { s with feed := List.map (PostsSlice.updatePostLike postId userId
              (!(p0.likes.contains userId))) s.feed }) := by
        simp only [PostsSlice.toggleLikeDispatch, PostsSlice.toggleLikeThunk,
          Bool.false_eq_true, if_false, hfind, PostsSlice.applyFeedAction]
      rw [heq]
      refine ⟨?_, ?_, ?_⟩
      · intro q' hq'
        obtain ⟨q, hq, rfl⟩ := List.mem_map.mp hq'
        by_cases hqid : (q.id == postId) = true
        · rw [if_pos hqid]
          exact toggledPost_inv userId hp0c hp0n
        · rw [if_neg hqid]
          exact hdb q hq
      · intro p' hp' q' hq' hid
        obtain ⟨p, hp, rfl⟩ := List.mem_map.mp hp'
        obtain ⟨q, hq, rfl⟩ := List.mem_map.mp hq'
        rw [updatePostLike_id] at hid
        by_cases hqid : (q.id == postId) = true
        · rw [if_pos hqid] at hid ⊢
          rw [toggledPost_id] at hid
          have hpid : p.id = postId := hid.trans hp0id
          obtain ⟨hlk, hcnt⟩ := hagree p hp p0 hp0mem (hpid.trans hp0id.symm)
          exact updatePostLike_matched userId hpid hlk hcnt hp0c
        · rw [if_neg hqid] at hid ⊢
          have hpid : ¬ p.id = postId := by
            intro hh
            exact hqid (by simp [← hid, hh])
          rw [updatePostLike_nonmatch userId _ hpid]
          exact hagree p hp q hq hid
      · intro p' hp'
        obtain ⟨p, hp, rfl⟩ := List.mem_map.mp hp'
        by_cases hpid : p.id = postId
        · obtain ⟨hlk, hcnt⟩ := hagree p hp p0 hp0mem (hpid.trans hp0id.symm)
          obtain ⟨hl2, hc2⟩ := updatePostLike_matched userId hpid hlk hcnt hp0c
          obtain ⟨htc, htn⟩ := toggledPost_inv userId hp0c hp0n
          rw [hl2, hc2]
          exact ⟨htc, htn⟩
        · rw [updatePostLike_nonmatch userId _ hpid]
          exact hfeed p hp

/-- C8: single-flight discipline holds. In FeedScreen, `loadMorePosts` is a
no-op (same state back, no cache read, no remote query) whenever a load-more
is already outstanding, there are no more posts, or the screen is in offline
mode; in PaginatedFlatList, `fetchMoreData` is likewise a no-op whenever a
fetch is already in flight or `hasMore` is false. -/
theorem c8_load_more_single_flight :
    (∀ (env : FeedScreen.Env) (s : FeedScreen.ScreenState),
      s.loadingMore = true ∨ s.hasMorePosts = false ∨ s.offlineMode = true →
      FeedScreen.loadMorePosts env true s =
        { state := s, cacheRead := false, queryIssued := false }) ∧
    (∀ (limit : Nat) (remote : Except String (List Post)) (s : PaginatedFlatList.PFLState),
      s.loading = true ∨ s.hasMore = false →
      PaginatedFlatList.fetchMoreData limit remote s =
        { state := s, queryIssued := false }) := by
  constructor
  · intro env s h
    unfold FeedScreen.loadMorePosts
    rcases h with h | h | h <;> simp [h]
  · intro limit remote s h
    unfold PaginatedFlatList.fetchMoreData
    rcases h with h | h <;> simp [h]

/-- C8 witness: with a load-more already in flight, both components drop the
second invocation. -/
theorem c8_load_more_single_flight_witness :
    FeedScreen.loadMorePosts offlineEnv true busyScreenState =
      { state := busyScreenState, cacheRead := false, queryIssued := false } ∧
    PaginatedFlatList.fetchMoreData 10 (.ok [postY]) busyPflState =
      { state := busyPflState, queryIssued := false } :=
  ⟨c8_load_more_single_flight.1 offlineEnv busyScreenState (Or.inl rfl),
   c8_load_more_single_flight.2 10 (.ok [postY]) busyPflState (Or.inl rfl)⟩

/-- Helper: the mark-as-read update never changes a notification's id. -/
theorem markReadUpdate_id (ids : List String) (n : Notification) :
    (if ids.contains n.id then { n with read := true } else n).id = n.id := by
  split <;> rfl

/-- Helper: each array-slice reducer step keeps unreadCount equal to the
number of unread notifications. -/
theorem notifReduce_unreadInv {s : NotificationsArray.NotifState}
    (h : NotificationsArray.unreadInv s) (a : NotificationsArray.NotifAction) :
    NotificationsArray.unreadInv (NotificationsArray.notifReduce s a) := by
  cases a with
  | add n => rfl
  | reset => rfl
  | fetchFulfilled payload =>
    simp only [NotificationsArray.notifReduce, NotificationsArray.unreadInv] at h ⊢
    rw [List.filter_append, List.length_append, h]
  | markReadFulfilled ids => rfl

/-- Helper: each id-safe array-slice reducer step keeps the stored ids
duplicate-free. -/
theorem notifReduce_idsNodup {s : NotificationsArray.NotifState}
    (hn : NotificationsArray.idsNodup s) {a : NotificationsArray.NotifAction}
    (hsafe : NotificationsArray.idSafeAction s a) :
    NotificationsArray.idsNodup (NotificationsArray.notifReduce s a) := by
  cases a with
  | add n =>
    show (n :: s.notifications).Pairwise _
    rw [List.pairwise_cons]
    exact ⟨fun m hm => (hsafe m hm).symm, hn⟩
  | reset => exact List.Pairwise.nil
  | fetchFulfilled payload =>
    show (s.notifications ++ payload.filter _).Pairwise _
    rw [List.pairwise_append]
    refine ⟨hn, List.Pairwise.sublist (List.filter_sublist _) hsafe, ?_⟩
    intro x hx y hy
    have hy2 := List.of_mem_filter hy
    simp only [Bool.not_eq_true', List.any_eq_false, beq_iff_eq, ne_eq] at hy2
    exact hy2 x hx
  | markReadFulfilled ids =>
    show (s.notifications.map _).Pairwise _
    rw [List.pairwise_map]
    refine hn.imp (fun hab => ?_)
    rw [markReadUpdate_id, markReadUpdate_id]
    exact hab

/-- C9 counterexample: the id-uniqueness half of the claim fails as stated.
Dispatching `addNotification` twice with the same payload id "a" from the
initial state stores the id twice: the reducer unshifts without checking
whether the id is already present. -/
theorem c9_counterexample_duplicate_add :
    ((NotificationsArray.notifReduceAll NotificationsArray.initialNotifState
      [.add { id := "a", read := false }, .add { id := "a", read := false }]).notifications.map
        Notification.id = ["a", "a"]) ∧
    ¬ NotificationsArray.idsNodup (NotificationsArray.notifReduceAll
      NotificationsArray.initialNotifState
      [.add { id := "a", read := false }, .add { id := "a", read := false }]) := by
  exact ⟨rfl, by decide⟩

/-- C9 amended: for every sequence of addNotification, resetNotifications,
fetchNotifications.fulfilled and markAsRead.fulfilled actions from the
initial state, unreadCount equals the number of stored notifications whose
read flag is false — unconditionally; and no two stored notifications share
an id provided the run is id-safe (every added payload id is fresh and no
fetched payload carries two entries with the same id). Without that
proviso, addNotification can store a duplicate id. -/
theorem c9_unread_invariant_and_conditional_nodup
    (acts : List NotificationsArray.NotifAction) :
    NotificationsArray.unreadInv
      (NotificationsArray.notifReduceAll NotificationsArray.initialNotifState acts) ∧
    (NotificationsArray.idSafeRun NotificationsArray.initialNotifState acts →
      NotificationsArray.idsNodup
        (NotificationsArray.notifReduceAll NotificationsArray.initialNotifState acts)) := by
  have h1 : ∀ (acts2 : List NotificationsArray.NotifAction)
      (s : NotificationsArray.NotifState), NotificationsArray.unreadInv s →
      NotificationsArray.unreadInv (NotificationsArray.notifReduceAll s acts2) := by
    intro acts2
    induction acts2 with
    | nil =>
      intro s hs
      exact hs
    | cons a acts2 ih =>
      intro s hs
      exact ih _ (notifReduce_unreadInv hs a)
  have h2 : ∀ (acts2 : List NotificationsArray.NotifAction)
      (s : NotificationsArray.NotifState), NotificationsArray.idsNodup s →
      NotificationsArray.idSafeRun s acts2 →
      NotificationsArray.idsNodup (NotificationsArray.notifReduceAll s acts2) := by
    intro acts2
    induction acts2 with
    | nil =>
      intro s hs _
      exact hs
    | cons a acts2 ih =>
      intro s hs hsafe
      exact ih _ (notifReduce_idsNodup hs hsafe.1) hsafe.2
  exact ⟨h1 acts _ rfl, fun hsafe => h2 acts _ List.Pairwise.nil hsafe⟩

/-- C9 amended, witness: an add, an overlapping fetch and a mark-as-read
keep unreadCount correct and the ids duplicate-free. -/
theorem c9_unread_invariant_witness :
    NotificationsArray.unreadInv
      (NotificationsArray.notifReduceAll NotificationsArray.initialNotifState
        notifWitnessActs) ∧
    NotificationsArray.idsNodup
      (NotificationsArray.notifReduceAll NotificationsArray.initialNotifState
        notifWitnessActs) :=
  ⟨(c9_unread_invariant_and_conditional_nodup notifWitnessActs).1,
   (c9_unread_invariant_and_conditional_nodup notifWitnessActs).2
     ⟨by decide, by decide, trivial, trivial⟩⟩

/-- C10: the Map/object-based notifications slice is not total on its own
initial state. `initialState.notifications` is a plain object literal, and
both `addNotification` and `fetchNotifications.fulfilled` immediately call
`state.notifications.set(...)` on it, which is a TypeError at runtime (a
plain object has no `.set` method), so the dispatch fails instead of
storing the notification, contradicting the claim. -/
theorem c10_reducers_throw_on_initial_state :
    NotificationsMap.addNotification NotificationsMap.initialState
      { id := "n1", read := false } =
      .error "TypeError: state.notifications.set is not a function" ∧
    NotificationsMap.fetchFulfilled NotificationsMap.initialState
      [{ id := "n1", read := false }] =
      .error "TypeError: state.notifications.set is not a function" := by
  exact ⟨rfl, rfl⟩

end HealthConnect
